import Mathlib

/-!
Shallow embedding of the Okta identity-engine embedded-sign-in-widget sample
server (Go package `server`, file `server.go`).  Pure helpers (base64url / hex
encoding, endpoint resolution, PKCE construction) are translated directly;
the HTTP handlers are embedded as pure functions from the request data, the
server state and oracles for the external collaborators (the platform random
source, the SHA-256 hash from the crypto library, the upstream token endpoint
and the third-party JWT verifier) to an explicit result recording the
response outcome, the updated cache/session and the outbound requests made.
-/

namespace OktaSample

/-- Alphabet of base64url (RFC 4648 §5), as used by Go's
`base64.RawURLEncoding` and `base64.URLEncoding`. -/
def b64Alphabet : List Char :=
  "ABCDEFGHIJKLMNOPQRSTUVWXYZabcdefghijklmnopqrstuvwxyz0123456789-_".toList

/-- The base64url character for a 6-bit value. -/
def b64Char (n : Nat) : Char := b64Alphabet.getD n 'A'

/-- Go `base64.RawURLEncoding.EncodeToString`: base64url without padding.
Bytes are modelled as `Nat` (values < 256 in any real input). -/
def rawURLEncode : List Nat → List Char
  | [] => []
  | [b1] => [b64Char (b1 / 4), b64Char (b1 % 4 * 16)]
  | [b1, b2] => [b64Char (b1 / 4), b64Char (b1 % 4 * 16 + b2 / 16),
      b64Char (b2 % 16 * 4)]
  | b1 :: b2 :: b3 :: rest =>
      b64Char (b1 / 4) :: b64Char (b1 % 4 * 16 + b2 / 16) ::
      b64Char (b2 % 16 * 4 + b3 / 64) :: b64Char (b3 % 64) :: rawURLEncode rest

/-- Go `base64.URLEncoding.EncodeToString`: base64url with `=` padding. -/
def urlEncodePad : List Nat → List Char
  | [] => []
  | [b1] => [b64Char (b1 / 4), b64Char (b1 % 4 * 16), '=', '=']
  | [b1, b2] => [b64Char (b1 / 4), b64Char (b1 % 4 * 16 + b2 / 16),
      b64Char (b2 % 16 * 4), '=']
  | b1 :: b2 :: b3 :: rest =>
      b64Char (b1 / 4) :: b64Char (b1 % 4 * 16 + b2 / 16) ::
      b64Char (b2 % 16 * 4 + b3 / 64) :: b64Char (b3 % 64) :: urlEncodePad rest

/-- Lower-case hex digit. -/
def hexDigit (n : Nat) : Char := "0123456789abcdef".toList.getD n '0'

/-- Go `hex.EncodeToString`. -/
def hexEncode : List Nat → List Char
  | [] => []
  | b :: bs => hexDigit (b / 16) :: hexDigit (b % 16) :: hexEncode bs

/-- Whether `pre` is a leading segment of `cs` (helper for `strContains`). -/
def charsLeads : List Char → List Char → Bool
  | [], _ => true
  | _ :: _, [] => false
  | p :: ps, c :: cs => p == c && charsLeads ps cs

/-- Whether `sub` occurs contiguously inside `cs`. -/
def charsContains (sub : List Char) : List Char → Bool
  | [] => sub.isEmpty
  | c :: cs => charsLeads sub (c :: cs) || charsContains sub cs

/-- Go `strings.Contains s sub`. -/
def strContains (s sub : String) : Bool := charsContains sub.toList s.toList

/-- Bytes of an ASCII string, mirroring Go's `[]byte(s)` on the base64url
strings this program hashes. -/
def strBytes (s : String) : List Nat := s.toList.map Char.toNat

/-- Configuration values read from the IDX client (external collaborator;
only looked up, never computed by this program). -/
structure Config where
  issuer : String
  clientID : String
  clientSecret : String
  deriving DecidableEq, Repr

/-- Source `oAuthEndPoint`: `{issuer}/v1/{op}` when the issuer string
contains `"oauth2"`, else `{issuer}/oauth2/v1/{op}`. -/
def oAuthEndPoint (issuer operation : String) : String :=
  if strContains issuer "oauth2" then issuer ++ "/v1/" ++ operation
  else issuer ++ "/oauth2/v1/" ++ operation

/-- Source `PKCE` struct. -/
structure PKCE where
  codeVerifier : String
  codeChallenge : String
  codeChallengeMethod : String
  deriving DecidableEq, Repr

/-- Source `createCodeVerifier`: base64url (raw, no padding) encoding of the
86 random bytes drawn from the platform entropy source (the draw is the
`randomBytes` argument; the error branch fires only when the platform source
fails and is outside this pure model). -/
def createCodeVerifier (randomBytes : List Nat) : String :=
  String.mk (rawURLEncode randomBytes)

/-- Source `createPKCEData`: the challenge is the raw-base64url encoding of
the SHA-256 digest of the verifier's bytes; the method is `"S256"`.  The
hash itself lives in Go's crypto library, so it enters as the oracle
`sha256`. -/
def createPKCEData (sha256 : List Nat → List Nat) (randomBytes : List Nat) :
    PKCE :=
  let codeVerifier := createCodeVerifier randomBytes
  { codeVerifier := codeVerifier
    codeChallenge := String.mk (rawURLEncode (sha256 (strBytes codeVerifier)))
    codeChallengeMethod := "S256" }

/-- Source `generateNonce`: padded base64url encoding of 32 random bytes. -/
def generateNonce (nonceBytes : List Nat) : String :=
  String.mk (urlEncodePad nonceBytes)

/-- The go-cache instance, modelled as an association list from string key
to string value.  The TTL arguments of the source (5-minute sweep,
per-entry 1-hour duration) are dropped: no claim here depends on the
passage of time, and within a single handler run no entry expires. -/
def Cache := List (String × String)
  deriving DecidableEq, Repr

/-- go-cache `Get`. -/
def cacheGet (c : Cache) (k : String) : Option String :=
  (List.find? (fun p => p.1 == k) c).map Prod.snd

/-- go-cache `Add`: inserts only when the key is not already present
(`Add` errors on an existing live entry and leaves it in place). -/
def cacheAdd (c : Cache) (k v : String) : Cache :=
  if (cacheGet c k).isSome then c else (k, v) :: c

/-- go-cache `Flush`: removes every entry of the shared cache. -/
def cacheFlush (_ : Cache) : Cache := ([] : List (String × String))

/-- A gorilla session: the cookie-backed id plus its `Values` map, modelled
as an association list (the program only ever stores strings in it). -/
structure Session where
  id : String
  values : List (String × String)
  deriving DecidableEq, Repr

/-- Lookup in `session.Values`; `none` plays Go's `nil` for a missing key. -/
def svGet (vs : List (String × String)) (k : String) : Option String :=
  (List.find? (fun p => p.1 == k) vs).map Prod.snd

/-- Store into `session.Values`. -/
def svSet (vs : List (String × String)) (k v : String) :
    List (String × String) :=
  (k, v) :: List.filter (fun p => p.1 != k) vs

/-- The guard pattern `v == nil || v == ""` used on session values. -/
def absentVal (v : Option String) : Bool := v.isNone || v == some ""

/-- The server fields the handlers read and write: the IDX configuration,
the `state` generated at construction, the shared `pkce` and
`interactionHandle` fields and the shared token cache.  (The template
engine, router and HTTP plumbing are external collaborators.) -/
structure Server where
  config : Config
  state : String
  pkce : Option PKCE
  interactionHandle : String
  cache : Cache
  deriving DecidableEq, Repr

/-- Source `NewServer`: the `state` parameter is produced once, at server
construction, as the hex encoding of a 16-byte random draw; `pkce` starts
as Go's nil pointer and the cache starts empty. -/
def newServer (c : Config) (stateBytes : List Nat) : Server :=
  { config := c
    state := String.mk (hexEncode stateBytes)
    pkce := none
    interactionHandle := ""
    cache := ([] : List (String × String)) }

/-- Source `Exchange` struct: the decoded JSON body of the token-endpoint
response.  A field absent from the body decodes to its zero value `""`/`0`
(all fields carry `omitempty`). -/
structure Exchange where
  error : String
  errorDescription : String
  accessToken : String
  tokenType : String
  expiresIn : Int
  scope : String
  idToken : String
  deriving DecidableEq, Repr

/-- Everything `LoginHandler` produces: the updated server and session, and
the fields of the `customData` rendered into the login page (only the ones
claims are about: the state, the nonce and the PKCE data shown to the
browser). -/
structure LoginResult where
  server : Server
  session : Session
  renderState : String
  renderNonce : String
  renderPkce : Option PKCE
  deriving DecidableEq, Repr

/-- Source `LoginHandler`.  `freshPkce` is the value `createPKCEData` would
return on this request's random draw (built by the caller from the oracles),
and `nonceBytes` is this request's 32-byte nonce draw.  The guard inspects
`session.Values["pkceData"]`; when it is nil or empty the fresh PKCE data is
stored on the server and saved into the session under the three
`pkce_code_*` keys, otherwise the three `pkce_code_*` values are read back
out of the session (Go's type assertion on a missing key would panic; the
program never stores non-strings, so reading the stored string is faithful).
The interaction-handle call and template rendering are external; the handle
is passed in as `interactionHandle`. -/
def loginHandler (srv : Server) (sess : Session) (freshPkce : PKCE)
    (nonceBytes : List Nat) (interactionHandle : String) : LoginResult :=
  if absentVal (svGet sess.values "pkceData") then
    let values1 := svSet sess.values "pkce_code_verifier" freshPkce.codeVerifier
    let values2 := svSet values1 "pkce_code_challenge" freshPkce.codeChallenge
    let values3 := svSet values2 "pkce_code_challenge_method"
      freshPkce.codeChallengeMethod
    { server := { srv with
        pkce := some freshPkce
        interactionHandle := interactionHandle }
      session := { sess with values := values3 }
      renderState := srv.state
      renderNonce := generateNonce nonceBytes
      renderPkce := some freshPkce }
  else
    let reused : PKCE :=
      { codeVerifier := (svGet sess.values "pkce_code_verifier").getD ""
        codeChallenge := (svGet sess.values "pkce_code_challenge").getD ""
        codeChallengeMethod :=
          (svGet sess.values "pkce_code_challenge_method").getD "" }
    { server := { srv with
        pkce := some reused
        interactionHandle := interactionHandle }
      session := sess
      renderState := srv.state
      renderNonce := generateNonce nonceBytes
      renderPkce := some reused }

/-- The callback request's query string; `url.Values.Get` yields `""` for a
missing parameter, so plain strings model it exactly. -/
structure CallbackQuery where
  state : String
  error : String
  interactionCode : String
  deriving DecidableEq, Repr

/-- How `LoginCallbackHandler` ends. -/
inductive CallbackOutcome where
  | stateMismatch
  | interactionRequired (renderState renderHandle : String)
      (renderPkce : Option PKCE)
  | missingCode
  | missingPKCE
  | fatalVerification
  | authenticated
  deriving DecidableEq, Repr

/-- Result of `LoginCallbackHandler`: the outcome written to the response,
the cache after the handler, and the form parameters of the POST made to the
token endpoint (`none` when the exchange was never invoked). -/
structure CallbackResult where
  outcome : CallbackOutcome
  cache : Cache
  tokenRequest : Option (List (String × String))
  deriving DecidableEq, Repr

/-- Source `LoginCallbackHandler`.  The state check, the
`interaction_required` re-render, the `interaction_code` presence check and
the PKCE-session check run in order; then the code-for-token POST is made
and its decoded body is `exchangeResp` (the oracle standing for the upstream
endpoint — note the handler reads only the decoded struct, never the HTTP
status).  `verifyOk t` is whether the third-party verifier accepts identity
token `t` (source `verifyToken` returns an error exactly when it does not).
On a verification error the source calls `log.Fatalf`, so nothing past it
runs; on success the two tokens are cached under `{sessionID}-id_token` and
`{sessionID}-access_token` and the response redirects home. -/
def loginCallbackHandler (srv : Server) (sess : Session) (q : CallbackQuery)
    (exchangeResp : Exchange) (verifyOk : String → Bool) : CallbackResult :=
  if q.state != srv.state then
    { outcome := CallbackOutcome.stateMismatch
      cache := srv.cache
      tokenRequest := none }
  else if q.error == "interaction_required" then
    { outcome := CallbackOutcome.interactionRequired srv.state
        srv.interactionHandle srv.pkce
      cache := srv.cache
      tokenRequest := none }
  else if q.interactionCode == "" then
    { outcome := CallbackOutcome.missingCode
      cache := srv.cache
      tokenRequest := none }
  else if absentVal (svGet sess.values "pkce_code_verifier")
      || absentVal (svGet sess.values "pkce_code_challenge")
      || absentVal (svGet sess.values "pkce_code_challenge_method") then
    { outcome := CallbackOutcome.missingPKCE
      cache := srv.cache
      tokenRequest := none }
  else
    let tokenRequest : List (String × String) :=
      [("grant_type", "interaction_code"),
       ("interaction_code", q.interactionCode),
       ("client_id", srv.config.clientID),
       ("client_secret", srv.config.clientSecret),
       ("code_verifier", (svGet sess.values "pkce_code_verifier").getD "")]
    if verifyOk exchangeResp.idToken then
      { outcome := CallbackOutcome.authenticated
        cache := cacheAdd
          (cacheAdd srv.cache (sess.id ++ "-id_token") exchangeResp.idToken)
          (sess.id ++ "-access_token") exchangeResp.accessToken
        tokenRequest := some tokenRequest }
    else
      { outcome := CallbackOutcome.fatalVerification
        cache := srv.cache
        tokenRequest := some tokenRequest }

/-- Result of `LogoutHandler`: whether a revoke POST was attempted, the
cache afterwards, and the redirect target. -/
structure LogoutResult where
  revokeAttempted : Bool
  cache : Cache
  redirect : String
  deriving DecidableEq, Repr

/-- Source `LogoutHandler`.  `sessErr` is the error value returned by
`sessionStore.Get` alongside the session (gorilla returns a fresh session
even on error).  The source guards the whole revoke block with
`if session, err := ...Get(...); err != nil`, so the revoke POST happens
only when session retrieval FAILED and the cache holds an access token for
the returned session's id; afterwards it always flushes the entire cache and
redirects to `/`. -/
def logoutHandler (srv : Server) (sess : Session) (sessErr : Option String) :
    LogoutResult :=
  let revokeAttempted :=
    sessErr.isSome
      && (cacheGet srv.cache (sess.id ++ "-access_token")).isSome
  { revokeAttempted := revokeAttempted
    cache := cacheFlush srv.cache
    redirect := "/" }

/-- The validation configuration `verifyToken` hands to the third-party JWT
verifier: the claims-to-validate map and the issuer. -/
structure JwtVerifierSetup where
  issuer : String
  claimsToValidate : List (String × String)
  deriving DecidableEq, Repr

/-- Source `verifyToken`, the configuration part: the map `tv` receives the
single entry `"aud" ↦ clientID`, and the verifier is built with the
configured issuer.  (The verification itself is the third-party library.) -/
def verifyTokenSetup (c : Config) : JwtVerifierSetup :=
  { issuer := c.issuer
    claimsToValidate := [("aud", c.clientID)] }

/-- Sample IDX configuration used in concrete witnesses. -/
def sampleConfig : Config :=
  { issuer := "https://example.okta.com/oauth2/default"
    clientID := "cid"
    clientSecret := "secret" }

/-- Sample server state used in concrete witnesses. -/
def sampleServer : Server :=
  { config := sampleConfig
    state := "abcd"
    pkce := none
    interactionHandle := "ih-123"
    cache := ([] : List (String × String)) }

/-- Sample browser session holding stored PKCE data, used in witnesses. -/
def sampleSession : Session :=
  { id := "A"
    values := [("pkce_code_verifier", "v"), ("pkce_code_challenge", "c"),
      ("pkce_code_challenge_method", "S256")] }

/-- Sample callback query with the matching state, used in witnesses. -/
def sampleQuery : CallbackQuery :=
  { state := "abcd", error := "", interactionCode := "ic-1" }

/-- Sample callback query with a wrong state, used in witnesses. -/
def mismatchQuery : CallbackQuery :=
  { state := "evil", error := "", interactionCode := "ic-1" }

/-- Sample exchange body carrying a token and no error, for witnesses. -/
def tokenExchange : Exchange :=
  { error := "", errorDescription := "", accessToken := "at",
    tokenType := "", expiresIn := 0, scope := "", idToken := "tok" }

/-- Exchange body carrying both an error field and an id_token (the C3
counterexample input). -/
def errorWithTokenExchange : Exchange :=
  { error := "invalid_grant", errorDescription := "bad code",
    accessToken := "at", tokenType := "", expiresIn := 0, scope := "",
    idToken := "tok" }

/-- The spec scenario body: only error fields, every other field at its
zero value. -/
def errorOnlyExchange : Exchange :=
  { error := "invalid_grant", errorDescription := "bad code",
    accessToken := "", tokenType := "", expiresIn := 0, scope := "",
    idToken := "" }

/-- Fresh PKCE pair used as the generated value in C7's failing input. -/
def freshPkceSample : PKCE :=
  { codeVerifier := "v2", codeChallenge := "c2",
    codeChallengeMethod := "S256" }

/-- No base64url output character is the padding character. -/
theorem b64Char_ne_pad (n : Nat) : b64Char n ≠ '=' := by
  by_cases h : n < b64Alphabet.length
  · have hm : b64Alphabet.getD n 'A' ∈ b64Alphabet := by
      rw [List.getD_eq_getElem _ _ h]
      exact List.getElem_mem h
    have hall : ∀ c ∈ b64Alphabet, c ≠ '=' := by decide
    exact hall _ hm
  · unfold b64Char
    rw [List.getD_eq_default _ _ (Nat.le_of_not_lt h)]
    decide

/-- Raw (unpadded) base64url never emits a padding character. -/
theorem rawURLEncode_mem_ne_pad :
    ∀ bs : List Nat, ∀ c ∈ rawURLEncode bs, c ≠ '='
  | [] => by simp [rawURLEncode]
  | [b1] => by
      simp only [rawURLEncode, List.mem_cons, List.not_mem_nil, or_false]
      rintro c (rfl | rfl) <;> exact b64Char_ne_pad _
  | [b1, b2] => by
      simp only [rawURLEncode, List.mem_cons, List.not_mem_nil, or_false]
      rintro c (rfl | rfl | rfl) <;> exact b64Char_ne_pad _
  | b1 :: b2 :: b3 :: rest => by
      simp only [rawURLEncode, List.mem_cons]
      rintro c (rfl | rfl | rfl | rfl | hc)
      · exact b64Char_ne_pad _
      · exact b64Char_ne_pad _
      · exact b64Char_ne_pad _
      · exact b64Char_ne_pad _
      · exact rawURLEncode_mem_ne_pad rest c hc

/-- Length of the raw base64url encoding in terms of the input length. -/
theorem rawURLEncode_length :
    ∀ bs : List Nat, (rawURLEncode bs).length =
      4 * (bs.length / 3) +
        (if bs.length % 3 = 0 then 0 else bs.length % 3 + 1)
  | [] => by simp [rawURLEncode]
  | [b1] => by simp [rawURLEncode]
  | [b1, b2] => by simp [rawURLEncode]
  | b1 :: b2 :: b3 :: rest => by
      have ih := rawURLEncode_length rest
      simp only [rawURLEncode, List.length_cons, ih]
      split_ifs <;> omega

/-- C6: every PKCE value built by `createPKCEData` has its code challenge
equal to the unpadded base64url encoding of the SHA-256 digest of the code
verifier's bytes, carries challenge method `"S256"`, contains no padding
character in the challenge, and (on the source's 86-byte random draw) has a
code verifier of at least 43 base64url characters (exactly 115). -/
theorem createPKCEData_challenge_spec (sha256 : List Nat → List Nat)
    (randomBytes : List Nat) (h : randomBytes.length = 86) :
    (createPKCEData sha256 randomBytes).codeChallenge =
      String.mk (rawURLEncode (sha256
        (strBytes (createPKCEData sha256 randomBytes).codeVerifier))) ∧
    (createPKCEData sha256 randomBytes).codeChallengeMethod = "S256" ∧
    '=' ∉ (createPKCEData sha256 randomBytes).codeChallenge.toList ∧
    43 ≤ (createPKCEData sha256 randomBytes).codeVerifier.length := by
  refine ⟨rfl, rfl, ?_, ?_⟩
  · intro hmem
    exact rawURLEncode_mem_ne_pad _ _ hmem rfl
  · show 43 ≤ (String.mk (rawURLEncode randomBytes)).length
    have hl : (String.mk (rawURLEncode randomBytes)).length =
        (rawURLEncode randomBytes).length := rfl
    rw [hl, rawURLEncode_length, h]
    norm_num

/-- Witness for C6 at a concrete 86-byte draw and a concrete digest
function. -/
theorem createPKCEData_challenge_spec_witness :
    (List.replicate 86 7).length = 86 ∧
    PKCE.codeChallengeMethod
        (createPKCEData (fun _ => [0, 255]) (List.replicate 86 7)) = "S256" ∧
    43 ≤ String.length (PKCE.codeVerifier
        (createPKCEData (fun _ => [0, 255]) (List.replicate 86 7))) := by
  have h : (List.replicate 86 7).length = 86 := by simp
  have hmain := createPKCEData_challenge_spec (fun _ => [0, 255])
    (List.replicate 86 7) h
  exact ⟨h, hmain.2.1, hmain.2.2.2⟩

/-- C9: `oAuthEndPoint` resolves `{issuer}/v1/{op}` exactly when the issuer
string contains the segment `"oauth2"`, and `{issuer}/oauth2/v1/{op}`
otherwise. -/
theorem oAuthEndPoint_resolution (issuer op : String) :
    (strContains issuer "oauth2" = true →
      oAuthEndPoint issuer op = issuer ++ "/v1/" ++ op) ∧
    (strContains issuer "oauth2" = false →
      oAuthEndPoint issuer op = issuer ++ "/oauth2/v1/" ++ op) := by
  constructor <;> intro h <;> simp [oAuthEndPoint, h]

/-- Witness for C9 on a concrete issuer of each shape. -/
theorem oAuthEndPoint_resolution_witness :
    strContains "https://example.okta.com/oauth2/default" "oauth2" = true ∧
    oAuthEndPoint "https://example.okta.com/oauth2/default" "token" =
      "https://example.okta.com/oauth2/default" ++ "/v1/" ++ "token" ∧
    strContains "https://example.okta.com" "oauth2" = false ∧
    oAuthEndPoint "https://example.okta.com" "token" =
      "https://example.okta.com" ++ "/oauth2/v1/" ++ "token" := by
  refine ⟨by decide, ?_, by decide, ?_⟩
  · exact (oAuthEndPoint_resolution "https://example.okta.com/oauth2/default"
      "token").1 (by decide)
  · exact (oAuthEndPoint_resolution "https://example.okta.com" "token").2
      (by decide)

/-- C1: the callback caches tokens only when identity-token verification
succeeded — any change to the token cache entails a successful verification
and an authenticated outcome — and a verification failure leaves the cache
untouched and the outcome unauthenticated (the source aborts fatally). -/
theorem tokens_cached_only_after_verification (srv : Server) (sess : Session)
    (q : CallbackQuery) (ex : Exchange) (verifyOk : String → Bool) :
    ((loginCallbackHandler srv sess q ex verifyOk).cache ≠ srv.cache →
      verifyOk ex.idToken = true ∧
      (loginCallbackHandler srv sess q ex verifyOk).outcome =
        CallbackOutcome.authenticated) ∧
    (verifyOk ex.idToken = false →
      (loginCallbackHandler srv sess q ex verifyOk).outcome ≠
        CallbackOutcome.authenticated ∧
      (loginCallbackHandler srv sess q ex verifyOk).cache = srv.cache) := by
  unfold loginCallbackHandler
  split
  · simp
  split
  · simp
  split
  · simp
  split
  · simp
  split
  · rename_i hv
    constructor
    · intro _
      exact ⟨hv, rfl⟩
    · intro hfalse
      rw [hv] at hfalse
      exact absurd hfalse (by simp)
  · simp

/-- Witness for C1: with a rejecting verifier the concrete callback leaves
the cache unchanged and does not authenticate. -/
theorem tokens_cached_only_after_verification_witness :
    ((fun _ : String => false) "tok" = false) ∧
    (loginCallbackHandler sampleServer sampleSession sampleQuery
      tokenExchange (fun _ => false)).outcome ≠
      CallbackOutcome.authenticated ∧
    (loginCallbackHandler sampleServer sampleSession sampleQuery
      tokenExchange (fun _ => false)).cache = sampleServer.cache := by
  have hmain := (tokens_cached_only_after_verification sampleServer
    sampleSession sampleQuery tokenExchange (fun _ => false)).2 rfl
  exact ⟨rfl, hmain.1, hmain.2⟩

/-- C2: a callback whose state parameter differs from the stored state ends
immediately in the state-mismatch outcome, with the cache untouched and no
code-for-token request ever built. -/
theorem state_mismatch_aborts_without_exchange (srv : Server)
    (sess : Session) (q : CallbackQuery) (ex : Exchange)
    (verifyOk : String → Bool) (h : q.state ≠ srv.state) :
    loginCallbackHandler srv sess q ex verifyOk =
      { outcome := CallbackOutcome.stateMismatch
        cache := srv.cache
        tokenRequest := none } := by
  unfold loginCallbackHandler
  have hb : (q.state != srv.state) = true := by
    simp [bne_iff_ne, h]
  simp [hb]

/-- Witness for C2 on a concrete mismatched state. -/
theorem state_mismatch_aborts_without_exchange_witness :
    (mismatchQuery.state ≠ sampleServer.state) ∧
    loginCallbackHandler sampleServer sampleSession mismatchQuery
      tokenExchange (fun _ => true) =
      { outcome := CallbackOutcome.stateMismatch
        cache := sampleServer.cache
        tokenRequest := none } := by
  constructor
  · decide
  · exact state_mismatch_aborts_without_exchange sampleServer sampleSession
      mismatchQuery tokenExchange (fun _ => true) (by decide)

/-- C3 counterexample: a token-endpoint response body that carries
`error = "invalid_grant"` and `error_description = "bad code"` together with
an id_token the verifier accepts is NOT treated as a failure: the handler
never inspects the error field, reaches the authenticated outcome and caches
the tokens, so a session is established from a response carrying an error
field. -/
theorem exchange_error_field_ignored_cex :
    errorWithTokenExchange.error = "invalid_grant" ∧
    (loginCallbackHandler sampleServer sampleSession sampleQuery
      errorWithTokenExchange (fun t => t == "tok")).outcome =
      CallbackOutcome.authenticated ∧
    cacheGet (loginCallbackHandler sampleServer sampleSession sampleQuery
      errorWithTokenExchange (fun t => t == "tok")).cache "A-id_token" =
      some "tok" := by
  decide

/-- C3 (amended): the handler never inspects the `error` field of the
exchange body; for a response carrying an error field the flow fails only
through identity-token verification — whenever the carried id_token (the
empty string, in the spec's scenario body) fails verification, the handler
aborts fatally, no tokens are cached and no session is established, HTTP
status playing no role. -/
theorem exchange_error_fails_via_verification (srv : Server)
    (sess : Session) (q : CallbackQuery) (ex : Exchange)
    (verifyOk : String → Bool) (hErr : ex.error ≠ "")
    (hv : verifyOk ex.idToken = false) :
    (loginCallbackHandler srv sess q ex verifyOk).cache = srv.cache ∧
    (loginCallbackHandler srv sess q ex verifyOk).outcome ≠
      CallbackOutcome.authenticated := by
  unfold loginCallbackHandler
  split
  · simp
  split
  · simp
  split
  · simp
  split
  · simp
  split
  · rename_i hvt
    rw [hv] at hvt
    exact absurd hvt (by simp)
  · simp

/-- Witness for C3 (amended) on the spec's scenario body: error field set,
no id_token, verifier rejecting the empty token. -/
theorem exchange_error_fails_via_verification_witness :
    (errorOnlyExchange.error ≠ "") ∧
    (loginCallbackHandler sampleServer sampleSession sampleQuery
      errorOnlyExchange (fun _ => false)).cache = sampleServer.cache ∧
    (loginCallbackHandler sampleServer sampleSession sampleQuery
      errorOnlyExchange (fun _ => false)).outcome ≠
      CallbackOutcome.authenticated := by
  have hmain := exchange_error_fails_via_verification sampleServer
    sampleSession sampleQuery errorOnlyExchange (fun _ => false)
    (by decide) rfl
  exact ⟨by decide, hmain.1, hmain.2⟩

/-- C4 failing input, evaluated: the logout handler flushes the whole
shared cache, so when session `A` logs out while the cache also holds
session `B`'s identity token, `B`'s entry — present before — is gone
afterwards, contradicting that other sessions' entries remain unchanged. -/
theorem logout_flushes_other_sessions :
    cacheGet [("A-access_token", "atA"), ("B-id_token", "tB")]
      "B-id_token" = some "tB" ∧
    (∀ srvCache : Cache, ∀ sess : Session, ∀ sessErr : Option String,
      (logoutHandler { sampleServer with cache := srvCache } sess
        sessErr).cache = ([] : List (String × String))) ∧
    cacheGet (logoutHandler
      { sampleServer with
        cache := [("A-access_token", "atA"), ("B-id_token", "tB")] }
      sampleSession none).cache "B-id_token" = none := by
  refine ⟨by decide, ?_, by decide⟩
  intro srvCache sess sessErr
  rfl

/-- C5: the `state` value rendered at flow initiation is always the one
generated once at server construction — any two initiations against the
same server use the identical state, never fresh distinct values — while
the nonce is freshly encoded from each request's own draw. -/
theorem login_state_generated_once_not_per_flow (c : Config)
    (stateBytes : List Nat) (sess1 sess2 : Session) (p1 p2 : PKCE)
    (nb1 nb2 : List Nat) (ih1 ih2 : String) :
    (loginHandler (newServer c stateBytes) sess1 p1 nb1 ih1).renderState =
      (loginHandler (newServer c stateBytes) sess2 p2 nb2 ih2).renderState ∧
    (loginHandler (newServer c stateBytes) sess1 p1 nb1 ih1).renderState =
      String.mk (hexEncode stateBytes) ∧
    (loginHandler (newServer c stateBytes) sess1 p1 nb1 ih1).renderNonce =
      generateNonce nb1 := by
  refine ⟨?_, ?_, ?_⟩ <;>
    · unfold loginHandler newServer
      split <;> try split
      all_goals rfl

/-- C7 failing input, evaluated: with non-empty PKCE data stored in the
session under the `pkce_code_*` keys (but, as always in this program, no
`"pkceData"` key), the login handler still takes the generate branch: the
fresh pair replaces the stored one on the server and in the session, so the
stored PKCE data is never reused. -/
theorem stored_pkce_data_not_reused :
    absentVal (svGet sampleSession.values "pkce_code_verifier") = false ∧
    (loginHandler sampleServer sampleSession freshPkceSample [0]
      "ih").server.pkce = some freshPkceSample ∧
    svGet (loginHandler sampleServer sampleSession freshPkceSample [0]
      "ih").session.values "pkce_code_verifier" = some "v2" ∧
    svGet sampleSession.values "pkce_code_verifier" = some "v" := by
  decide

/-- C8: on the normal logout path — session retrieval succeeded — the
revoke request is never attempted even when a cached access token exists
for the session (the source guards the revoke block with `err != nil`);
the flush and the redirect to `/` still complete. -/
theorem logout_never_revokes_on_normal_path (srv : Server) (sess : Session)
    (h : (cacheGet srv.cache (sess.id ++ "-access_token")).isSome = true) :
    (logoutHandler srv sess none).revokeAttempted = false ∧
    (logoutHandler srv sess none).redirect = "/" ∧
    (logoutHandler srv sess none).cache = cacheFlush srv.cache := by
  exact ⟨rfl, rfl, rfl⟩

/-- Witness for C8: a session with a cached access token, retrieved
without error, logs out with no revoke attempt. -/
theorem logout_never_revokes_on_normal_path_witness :
    (cacheGet (Server.cache
      { sampleServer with cache := [("A-access_token", "at")] })
      (sampleSession.id ++ "-access_token")).isSome = true ∧
    (logoutHandler { sampleServer with cache := [("A-access_token", "at")] }
      sampleSession none).revokeAttempted = false := by
  have hmain := logout_never_revokes_on_normal_path
    { sampleServer with cache := [("A-access_token", "at")] }
    sampleSession (by decide)
  exact ⟨by decide, hmain.1⟩

/-- C10: the verifier is configured with exactly the issuer and the single
claim `aud ↦ clientID` (no nonce claim); the nonce of a flow initiation
reaches only the rendered page — the session saved and the server state
after login are identical for any two nonce draws. -/
theorem nonce_rendered_but_never_stored_or_checked (c : Config)
    (srv : Server) (sess : Session) (p : PKCE) (nb1 nb2 : List Nat)
    (ih : String) :
    (verifyTokenSetup c).issuer = c.issuer ∧
    (verifyTokenSetup c).claimsToValidate = [("aud", c.clientID)] ∧
    (loginHandler srv sess p nb1 ih).session =
      (loginHandler srv sess p nb2 ih).session ∧
    (loginHandler srv sess p nb1 ih).server =
      (loginHandler srv sess p nb2 ih).server ∧
    (loginHandler srv sess p nb1 ih).renderNonce = generateNonce nb1 := by
  refine ⟨rfl, rfl, ?_, ?_, ?_⟩ <;>
    · unfold loginHandler
      split
      all_goals rfl

end OktaSample
